import Mathlib

/-!
Verification of the document-assembly core of PyInvoice
(`pyinvoice/templates.py`, class `SimpleInvoice`).

The embedding below mirrors the Python source.  Python `Decimal` values are
modelled by the type `Dec` (an integer mantissa together with a count of
fractional digits): `Dec.mk m e` denotes the rational `m / 10^e`.  This is
exactly the information `decimal.Decimal` keeps for the non-negative-scale
decimals this program manipulates, and `quantize` semantics depend on it.
-/

namespace PyInvoice

/-- An arbitrary-precision decimal `man / 10 ^ exp`, mirroring Python
`decimal.Decimal` values whose exponent is non-positive (all decimals this
program constructs: money amounts, rates, precisions such as `0.01`). -/
structure Dec where
  man : Int
  exp : Nat
  deriving DecidableEq

/-- The rational value of a `Dec`. -/
def decVal (d : Dec) : ℚ := (d.man : ℚ) / 10 ^ d.exp

/-- Round-half-up division on naturals: `n / d` with ties rounded up
(`d` is a positive power of ten, hence even, at every call site). -/
def roundHalfUpNat (n d : Nat) : Nat := (n + d / 2) / d

/-- Python `ROUND_HALF_UP` applied to an integer mantissa `m` being divided
by `d`: round `m / d` to the nearest integer, ties away from zero. -/
def roundHalfUpInt (m : Int) (d : Nat) : Int :=
  if m < 0 then -(roundHalfUpNat m.natAbs d : Int) else (roundHalfUpNat m.natAbs d : Int)

/-- Round-half-even division on naturals (used by Python string formatting
of decimals, `'{0:.2f}'.format(...)`). -/
def roundHalfEvenNat (n d : Nat) : Nat :=
  let q := n / d
  let r := n % d
  if 2 * r > d then q + 1
  else if 2 * r < d then q
  else if q % 2 = 0 then q else q + 1

/-- Signed round-half-even. -/
def roundHalfEvenInt (m : Int) (d : Nat) : Int :=
  if m < 0 then -(roundHalfEvenNat m.natAbs d : Int) else (roundHalfEvenNat m.natAbs d : Int)

/-- Method `SimpleInvoice.getroundeddecimal` from `templates.py`:

    def getroundeddecimal(self, nrtoround, precision):
        d = Decimal(nrtoround)
        aftercomma = Decimal(precision)
        rvalue = Decimal(d.quantize(aftercomma, rounding='ROUND_HALF_UP'))
        return rvalue

Python `Decimal.quantize` rounds `d` to the *exponent* of `aftercomma`
(the number of fractional digits of the precision operand), with the given
rounding mode.  It does not round to a multiple of the precision's value.
-/
def getroundeddecimal (nrtoround precision : Dec) : Dec :=
  let d := nrtoround
  let aftercomma := precision
  if d.exp ≤ aftercomma.exp then
    ⟨d.man * 10 ^ (aftercomma.exp - d.exp), aftercomma.exp⟩
  else
    ⟨roundHalfUpInt d.man (10 ^ (d.exp - aftercomma.exp)), aftercomma.exp⟩

/-- Exact addition of decimals (Python `Decimal` addition is exact; the
result carries the larger number of fractional digits). -/
def decAdd (a b : Dec) : Dec :=
  ⟨a.man * 10 ^ (max a.exp b.exp - a.exp) + b.man * 10 ^ (max a.exp b.exp - b.exp),
   max a.exp b.exp⟩

/-- Exact multiplication of decimals (exact in Python's default 28-digit
context for all figures this program produces). -/
def decMul (a b : Dec) : Dec := ⟨a.man * b.man, a.exp + b.exp⟩

/-- Division `Decimal(str(rate)) / Decimal('100')`: dividing a decimal by 100 shifts
the exponent by two (exact in context for the rates at hand). -/
def decDiv100 (a : Dec) : Dec := ⟨a.man, a.exp + 2⟩

/-- Zero-padded two-digit rendering of a natural number below 100. -/
def pad2 (n : Nat) : String := if n < 10 then "0" ++ toString n else toString n

/-- Python `str()` of a decimal, as Python prints `Decimal` values with
non-positive exponent: used for the tax-rate inside the `Vat/Tax` label. -/
def decRepr (d : Dec) : String :=
  if d.exp = 0 then toString d.man
  else
    (if d.man < 0 then "-" else "") ++
      toString (d.man.natAbs / 10 ^ d.exp) ++ "." ++
      (String.mk (List.replicate (d.exp - (toString (d.man.natAbs % 10 ^ d.exp)).length) '0') ++
        toString (d.man.natAbs % 10 ^ d.exp))

/-- Python `'{0:.2f}'.format(x)` on a decimal: round to two fractional
digits (half-even, the formatting default) and print with exactly two
digits after the point. -/
def format2f (v : Dec) : String :=
  let q : Int :=
    if v.exp ≤ 2 then v.man * 10 ^ (2 - v.exp)
    else roundHalfEvenInt v.man (10 ^ (v.exp - 2))
  (if q < 0 then "-" else "") ++ toString (q.natAbs / 100) ++ "." ++ pad2 (q.natAbs % 100)

/-- Zero-padded four-digit rendering (strftime `%Y`). -/
def pad4 (n : Nat) : String :=
  if n < 10 then "000" ++ toString n
  else if n < 100 then "00" ++ toString n
  else if n < 1000 then "0" ++ toString n
  else toString n

/-- Character-by-character interpreter for the strftime patterns used by the
source (`%Y`, `%m`, `%d`, `%H`, `%M`); any other character is literal. -/
def strftimeChars : List Char → Nat → Nat → Nat → Nat → Nat → String
  | '%' :: 'Y' :: rest, y, mo, d, h, mi => pad4 y ++ strftimeChars rest y mo d h mi
  | '%' :: 'm' :: rest, y, mo, d, h, mi => pad2 mo ++ strftimeChars rest y mo d h mi
  | '%' :: 'd' :: rest, y, mo, d, h, mi => pad2 d ++ strftimeChars rest y mo d h mi
  | '%' :: 'H' :: rest, y, mo, d, h, mi => pad2 h ++ strftimeChars rest y mo d h mi
  | '%' :: 'M' :: rest, y, mo, d, h, mi => pad2 mi ++ strftimeChars rest y mo d h mi
  | c :: rest, y, mo, d, h, mi => String.singleton c ++ strftimeChars rest y mo d h mi
  | [], _, _, _, _, _ => ""

/-- Python `value.strftime(fmt)` for the patterns the source uses. -/
def strftime (fmt : String) (y mo d h mi : Nat) : String :=
  strftimeChars fmt.toList y mo d h mi

/-- A Python attribute value as stored on the entity models: `None`, a
string, a `datetime`, or a `date`. -/
inductive PyVal where
  | none
  | str (s : String)
  | datetime (year month day hour minute : Nat)
  | date (year month day : Nat)
  deriving DecidableEq

/-- Python truthiness for the values above (`None` and `''` are falsy;
`datetime`/`date` objects are always truthy). -/
def truthy : PyVal → Bool
  | .none => false
  | .str s => s != ""
  | .datetime .. => true
  | .date .. => true

/-- Method `SimpleInvoice._format_value`: datetimes become `YYYY-MM-DD HH:MM`,
dates become `YYYY-MM-DD`, everything else is returned unchanged. -/
def format_value : PyVal → PyVal
  | .datetime y mo d h mi => .str (strftime "%Y-%m-%d %H:%M" y mo d h mi)
  | .date y mo d => .str (strftime "%Y-%m-%d" y mo d 0 0)
  | v => v

/-- A cell of a rendered table: a plain value or a `Paragraph` with a
named style. -/
inductive Cell where
  | text (s : String)
  | para (text style : String)
  deriving DecidableEq

/-- Insert a (formatted) attribute value into a table cell. -/
def cellOfVal : PyVal → Cell
  | .str s => .text s
  | .none => .text ""
  | .datetime .. => .text ""
  | .date .. => .text ""

/-- The string content of a `PyVal` (used for the bottom-tip paragraph,
which is a string whenever it is truthy). -/
def stringOfVal : PyVal → String
  | .str s => s
  | _ => ""

/-- Method `SimpleInvoice._attribute_to_table_data`: walk the ordered
(attribute value, verbose name) list, and for every truthy value append the
row `['<verbose name>:', formatted value]`.  (Python's dynamic
`getattr(instance, property_name)` is embedded by supplying the attribute
values directly, in the fixed order each caller uses.) -/
def attribute_to_table_data (attribute_verbose_name_list : List (PyVal × String)) :
    List (List Cell) :=
  attribute_verbose_name_list.foldl
    (fun data pv =>
      if truthy pv.1 then
        data ++ [[Cell.text (pv.2 ++ ":"), cellOfVal (format_value pv.1)]]
      else data)
    []

/-- Modelled from the spec: `InvoiceInfo` lives in `pyinvoice/models.py`,
which is not part of the sources at hand; per spec §3 it is a flat
attribute bag whose fields are optional/nullable. -/
structure InvoiceInfo where
  invoice_id : PyVal
  invoice_datetime : PyVal
  due_datetime : PyVal
  deriving DecidableEq

/-- Modelled from the spec: `ServiceProviderInfo` (flat optional attribute
bag, `pyinvoice/models.py`). -/
structure ServiceProviderInfo where
  name : PyVal
  street : PyVal
  city : PyVal
  state : PyVal
  country : PyVal
  post_code : PyVal
  vat_tax_number : PyVal
  deriving DecidableEq

/-- Modelled from the spec: `ClientInfo` (flat optional attribute bag,
`pyinvoice/models.py`). -/
structure ClientInfo where
  name : PyVal
  street : PyVal
  city : PyVal
  state : PyVal
  country : PyVal
  post_code : PyVal
  email : PyVal
  client_id : PyVal
  deriving DecidableEq

/-- Modelled from the spec: `Item` (line item, `pyinvoice/models.py`):
name, description, units, unit price, and an independently supplied
amount (spec §3). -/
structure Item where
  name : String
  description : String
  units : Nat
  unit_price : Dec
  amount : Dec
  deriving DecidableEq

/-- Modelled from the spec: `Transaction` (`pyinvoice/models.py`). -/
structure Transaction where
  transaction_id : String
  gateway : String
  transaction_datetime : PyVal
  amount : Dec
  deriving DecidableEq

/-- An arbitrary Python object handed to `add_item` / `add_transaction`:
an `Item`, a `Transaction`, or anything else (the `isinstance` checks in
the source discriminate exactly these cases). -/
inductive PyObj where
  | item (i : Item)
  | transaction (t : Transaction)
  | other (s : String)
  deriving DecidableEq

/-- Is the object an `Item` (`isinstance(x, Item)`)? -/
def isItem : PyObj → Bool
  | .item _ => true
  | _ => false

/-- Is the object a `Transaction` (`isinstance(x, Transaction)`)? -/
def isTransaction : PyObj → Bool
  | .transaction _ => true
  | _ => false

/-- reportlab paragraph alignment constant. -/
def TA_CENTER : Int := 1

/-- reportlab unit: one inch in points. -/
def inch : Int := 72

/-- The `PaidStamp(3 * inch, -2 * inch)` decoration passed to the
rendering collaborator via the build kwargs (never a story block). -/
structure PaidStamp where
  x : Int
  y : Int
  deriving DecidableEq

/-- A grid-style directive, as the `(kind, start-cell, end-cell, ...)`
tuples of the source.  Coordinates are `(column, row)` pairs flattened to
`x1 y1 x2 y2`; `lineBelow` carries the constant weight-1 gray line and
`leftPadding` its padding amount. -/
inductive StyleCmd where
  | span (x1 y1 x2 y2 : Int)
  | lineBelow (x1 y1 x2 y2 : Int)
  | leftPadding (x1 y1 x2 y2 : Int) (pad : Int)
  | align (x1 y1 x2 y2 : Int) (dir : String)
  deriving DecidableEq

/-- A content block of the story: reportlab `Paragraph` (with a stylesheet
style name), the ad-hoc bottom-tip `Paragraph` (alignment chosen by the
caller), `SimpleTable`, `TableWithHeader`, plain `Table`, `Spacer`, or the
logo `Image`. -/
inductive Block where
  | para (text style : String)
  | bottomTipPara (text : String) (align : Int)
  | simpleTable (data : List (List Cell)) (horizontal_align : String)
  | tableWithHeader (data : List (List Cell)) (horizontal_align : String) (style : List StyleCmd)
  | table (data : List (List Cell)) (style : List StyleCmd)
  | spacer (w h : Int)
  | image
  deriving DecidableEq

/-- The mutable state of a `SimpleInvoice` document (constructor defaults
of `templates.py`; `precision` is the `'0.01'` constructor default). -/
structure SimpleInvoice where
  precision : Dec := ⟨1, 2⟩
  invoice_info : Option InvoiceInfo := Option.none
  service_provider_info : Option ServiceProviderInfo := Option.none
  client_info : Option ClientInfo := Option.none
  is_paid : Bool := false
  items : List PyObj := []
  item_tax_rate : Option Dec := Option.none
  transactions : List PyObj := []
  story : List Block := []
  bottom_tip : PyVal := .none
  bottom_tip_align : Int := TA_CENTER
  logo : Option Unit := Option.none
  build_kwargs : Option PaidStamp := Option.none
  deriving DecidableEq

/-- Method `SimpleInvoice.add_item`: append only if the argument is an `Item`;
anything else is silently dropped (no exception — the function is total). -/
def add_item (self : SimpleInvoice) (item : PyObj) : SimpleInvoice :=
  match item with
  | .item _ => { self with items := self.items ++ [item] }
  | _ => self

/-- Method `SimpleInvoice.add_transaction`: append only if the argument is a
`Transaction`; anything else is silently dropped. -/
def add_transaction (self : SimpleInvoice) (t : PyObj) : SimpleInvoice :=
  match t with
  | .transaction _ => { self with transactions := self.transactions ++ [t] }
  | _ => self

/-- Method `SimpleInvoice._invoice_info_data`. -/
def invoice_info_data (self : SimpleInvoice) : List (List Cell) :=
  match self.invoice_info with
  | some info =>
      attribute_to_table_data
        [(info.invoice_id, "Invoice id"), (info.invoice_datetime, "Invoice date"),
         (info.due_datetime, "Invoice due date")]
  | Option.none => []

/-- Method `SimpleInvoice._build_invoice_info`. -/
def build_invoice_info (self : SimpleInvoice) : SimpleInvoice :=
  let d := invoice_info_data self
  if d.isEmpty then self
  else
    { self with story :=
        self.story ++ [.para "Invoice" "RightHeading1", .simpleTable d "RIGHT"] }

/-- Method `SimpleInvoice._service_provider_data`. -/
def service_provider_data (self : SimpleInvoice) : List (List Cell) :=
  match self.service_provider_info with
  | some info =>
      attribute_to_table_data
        [(info.name, "Name"), (info.street, "Street"), (info.city, "City"),
         (info.state, "State"), (info.country, "Country"),
         (info.post_code, "Post code"), (info.vat_tax_number, "Vat/Tax number")]
  | Option.none => []

/-- Method `SimpleInvoice._build_service_provider_info`. -/
def build_service_provider_info (self : SimpleInvoice) : SimpleInvoice :=
  let d := service_provider_data self
  if d.isEmpty then self
  else
    { self with story :=
        self.story ++ [.para "Service Provider" "RightHeading1", .simpleTable d "RIGHT"] }

/-- Method `SimpleInvoice._client_info_data`. -/
def client_info_data (self : SimpleInvoice) : List (List Cell) :=
  match self.client_info with
  | some info =>
      attribute_to_table_data
        [(info.name, "Name"), (info.street, "Street"), (info.city, "City"),
         (info.state, "State"), (info.country, "Country"),
         (info.post_code, "Post code"), (info.email, "Email"),
         (info.client_id, "Client id")]
  | Option.none => []

/-- Method `SimpleInvoice._build_client_info`. -/
def build_client_info (self : SimpleInvoice) : SimpleInvoice :=
  let d := client_info_data self
  if d.isEmpty then self
  else
    { self with story :=
        self.story ++ [.para "Client" "Heading1", .simpleTable d "LEFT"] }

/-- The merged party grid's header row (two spanned headings). -/
def party_header_row : List Cell :=
  [Cell.para "Service Provider" "Heading1", Cell.text "",
   Cell.text "",
   Cell.para "Client" "Heading1", Cell.text ""]

/-- The merged party grid's style directives (two spans, two underlines,
zero left padding everywhere). -/
def party_table_style : List StyleCmd :=
  [.span 0 0 1 0, .span 3 0 4 0,
   .lineBelow 0 0 1 0, .lineBelow 3 0 4 0,
   .leftPadding 0 0 (-1) (-1) 0]

/-- Lines 165–174 of `templates.py`: pad the shorter of the two sparse row
lists and zip them into five-cell rows under the header.  Note the
asymmetry in the source: the client-shorter branch appends
`[["", ""]] * diff` (`diff` separate blank pairs) while the
provider-shorter branch appends `[["", ""] * diff]` (a single row of
`2 * diff` blanks). -/
def merge_party_table_data (service_provider_data_ client_info_data_ : List (List Cell)) :
    List (List Cell) :=
  let cid := client_info_data_
  let spd := service_provider_data_
  let diff := ((cid.length : Int) - (spd.length : Int)).natAbs
  let (spd, cid) :=
    if diff > 0 then
      if cid.length < spd.length then
        (spd, cid ++ List.replicate diff [Cell.text "", Cell.text ""])
      else
        (spd ++ [List.flatten (List.replicate diff [Cell.text "", Cell.text ""])], cid)
    else (spd, cid)
  party_header_row :: (spd.zip cid).map (fun d => d.1 ++ [Cell.text ""] ++ d.2)

/-- Method `SimpleInvoice._build_service_provider_and_client_info`: when both
entities are present, build the merged five-column grid (header row with
two spans, then the zipped provider/client rows, the shorter side padded
by `merge_party_table_data`); otherwise fall back to the two standalone
builders. -/
def build_service_provider_and_client_info (self : SimpleInvoice) : SimpleInvoice :=
  match self.service_provider_info, self.client_info with
  | some _, some _ =>
      { self with story :=
          self.story ++
            [.table (merge_party_table_data (service_provider_data self) (client_info_data self))
              party_table_style] }
  | _, _ =>
      build_client_info (build_service_provider_info self)

/-- Method `SimpleInvoice._item_raw_data_and_subtotal`: one display row per
stored `Item` (non-items are skipped) and the exact running sum of the
amounts.  (The source renders `unit_price` through `float`; both price and
amount are displayed via 2-decimal formatting, embedded as `format2f`.) -/
def item_raw_data_and_subtotal (self : SimpleInvoice) : List (List Cell) × Dec :=
  self.items.foldl
    (fun (acc : List (List Cell) × Dec) obj =>
      match obj with
      | .item item =>
          (acc.1 ++
            [[Cell.text item.name,
              Cell.para item.description "TableParagraph",
              Cell.text (toString item.units),
              Cell.text (format2f item.unit_price),
              Cell.text (format2f item.amount)]],
           decAdd acc.2 item.amount)
      | _ => acc)
    ([], ⟨0, 0⟩)

/-- The items table title row. -/
def item_data_title : List Cell :=
  [Cell.text "Name", Cell.text "Description", Cell.text "Units",
   Cell.text "Unit Price", Cell.text "Amount"]

/-- Lines 215–251 of `templates.py` (`_item_data_and_style` after the
`Detail` heading is appended): prepend the title row and append the
`Subtotal`, optional `Vat/Tax` and `Total` summary rows, together with the
span / right-align style directives. -/
def items_summary (item_data0 : List (List Cell)) (item_subtotal precision : Dec)
    (item_tax_rate : Option Dec) : List (List Cell) × List StyleCmd :=
  let item_data := item_data_title :: item_data0
    let sum_start_y_index : Int := item_data.length
    let sum_end_x_index : Int := -1 - 1
    let sum_start_x_index : Int := (item_data_title.length : Int) - (sum_end_x_index.natAbs : Int)
    let rounditem_subtotal := getroundeddecimal item_subtotal precision
    let item_data := item_data ++
      [[Cell.text "Subtotal", Cell.text "", Cell.text "", Cell.text "",
        Cell.text (format2f rounditem_subtotal)]]
    let style : List StyleCmd :=
      [StyleCmd.span 0 sum_start_y_index sum_start_x_index sum_start_y_index,
       StyleCmd.align 0 sum_start_y_index sum_end_x_index (-1) "RIGHT"]
    let (item_data, style, sum_start_y_index, tax_total) :=
      match item_tax_rate with
      | some rate =>
          let tax_total := decMul item_subtotal (decDiv100 rate)
          let roundtax_total := getroundeddecimal tax_total precision
          (item_data ++
            [[Cell.text ("Vat/Tax (" ++ decRepr rate ++ "%)"), Cell.text "", Cell.text "",
              Cell.text "", Cell.text (format2f roundtax_total)]],
           style ++
            [StyleCmd.span 0 (sum_start_y_index + 1) sum_start_x_index (sum_start_y_index + 1),
             StyleCmd.align 0 (sum_start_y_index + 1) sum_end_x_index (-1) "RIGHT"],
           sum_start_y_index + 1, some tax_total)
      | Option.none => (item_data, style, sum_start_y_index, (Option.none : Option Dec))
    let total := decAdd item_subtotal
      (match tax_total with
       | some t => if t.man ≠ 0 then t else ⟨0, 0⟩
       | Option.none => ⟨0, 0⟩)
    let roundtotal := getroundeddecimal total precision
    let item_data := item_data ++
      [[Cell.text "Total", Cell.text "", Cell.text "", Cell.text "",
        Cell.text (format2f roundtotal)]]
    let sum_start_y_index := sum_start_y_index + 1
    let style := style ++
      [StyleCmd.span 0 sum_start_y_index sum_start_x_index sum_start_y_index,
       StyleCmd.align 0 sum_start_y_index sum_end_x_index (-1) "RIGHT"]
    (item_data, style)

/-- Method `SimpleInvoice._item_data_and_style`: appends the `Detail` heading to
the story when items exist and produces the items table data (title row,
item rows, then the summary rows of `items_summary`) together with the
style directives. -/
def item_data_and_style (self : SimpleInvoice) :
    SimpleInvoice × List (List Cell) × List StyleCmd :=
  let (item_data, item_subtotal) := item_raw_data_and_subtotal self
  if item_data.isEmpty then (self, item_data, [])
  else
    let self := { self with story := self.story ++ [Block.para "Detail" "Heading1"] }
    let (item_data, style) := items_summary item_data item_subtotal self.precision self.item_tax_rate
    (self, item_data, style)

/-- Method `SimpleInvoice._build_items`. -/
def build_items (self : SimpleInvoice) : SimpleInvoice :=
  let (self, item_data, style) := item_data_and_style self
  if item_data.isEmpty then self
  else { self with story := self.story ++ [.tableWithHeader item_data "LEFT" style] }

/-- Method `SimpleInvoice._transactions_data`: the comprehension over stored
transactions (non-transactions skipped), with the title row prepended when
any data row exists. -/
def transactions_data (self : SimpleInvoice) : List (List Cell) :=
  let transaction_table_data :=
    self.transactions.filterMap
      (fun obj =>
        match obj with
        | .transaction t =>
            some [Cell.text t.transaction_id,
                  Cell.para t.gateway "TableParagraph",
                  cellOfVal (format_value t.transaction_datetime),
                  Cell.text (format2f t.amount)]
        | _ => Option.none)
  if transaction_table_data.isEmpty then transaction_table_data
  else
    [Cell.text "Transaction id", Cell.text "Gateway", Cell.text "Transaction date",
     Cell.text "Amount"] :: transaction_table_data

/-- Method `SimpleInvoice._build_transactions`. -/
def build_transactions (self : SimpleInvoice) : SimpleInvoice :=
  let d := transactions_data self
  if d.isEmpty then self
  else
    { self with story :=
        self.story ++ [.para "Transaction" "Heading1", .tableWithHeader d "LEFT" []] }

/-- Method `SimpleInvoice._build_bottom_tip`. -/
def build_bottom_tip (self : SimpleInvoice) : SimpleInvoice :=
  if truthy self.bottom_tip then
    { self with story :=
        self.story ++ [.spacer 5 5, .bottomTipPara (stringOfVal self.bottom_tip) self.bottom_tip_align] }
  else self

/-- Method `SimpleInvoice._build_logo`. -/
def build_logo (self : SimpleInvoice) : SimpleInvoice :=
  match self.logo with
  | some _ => { self with story := self.story ++ [.image] }
  | Option.none => self

/-- Method `SimpleInvoice._build_paid_stamp`: no story block; when the paid flag
is set, record the `PaidStamp(3 * inch, -2 * inch)` decoration in the
build kwargs. -/
def build_paid_stamp (self : SimpleInvoice) : SimpleInvoice :=
  if self.is_paid then { self with build_kwargs := some ⟨3 * inch, -2 * inch⟩ }
  else self

/-- Method `SimpleInvoice.finish`: the fixed assembly order.  The final state's
`story` and `build_kwargs` are what the source hands to the external
`build` call of the rendering collaborator. -/
def finish (self : SimpleInvoice) : SimpleInvoice :=
  build_paid_stamp
    (build_bottom_tip
      (build_transactions
        (build_items
          (build_service_provider_and_client_info
            (build_invoice_info (build_logo self))))))

/-! ### Per-section block lists

`X_blocks s` is the list of story blocks section `X` contributes for the
document state `s`; the `build_X_eq` lemmas prove that each builder method
appends exactly these blocks to the story and changes nothing else. -/

def logo_blocks (s : SimpleInvoice) : List Block :=
  match s.logo with
  | some _ => [Block.image]
  | Option.none => []

def invoice_info_blocks (s : SimpleInvoice) : List Block :=
  if (invoice_info_data s).isEmpty then []
  else [Block.para "Invoice" "RightHeading1", Block.simpleTable (invoice_info_data s) "RIGHT"]

def service_provider_blocks (s : SimpleInvoice) : List Block :=
  if (service_provider_data s).isEmpty then []
  else [Block.para "Service Provider" "RightHeading1",
        Block.simpleTable (service_provider_data s) "RIGHT"]

def client_blocks (s : SimpleInvoice) : List Block :=
  if (client_info_data s).isEmpty then []
  else [Block.para "Client" "Heading1", Block.simpleTable (client_info_data s) "LEFT"]

def party_blocks (s : SimpleInvoice) : List Block :=
  match s.service_provider_info, s.client_info with
  | some _, some _ =>
      [Block.table (merge_party_table_data (service_provider_data s) (client_info_data s))
        party_table_style]
  | _, _ => service_provider_blocks s ++ client_blocks s

def items_blocks (s : SimpleInvoice) : List Block :=
  if (item_raw_data_and_subtotal s).1.isEmpty then []
  else
    [Block.para "Detail" "Heading1",
     Block.tableWithHeader
       (items_summary (item_raw_data_and_subtotal s).1 (item_raw_data_and_subtotal s).2
         s.precision s.item_tax_rate).1
       "LEFT"
       (items_summary (item_raw_data_and_subtotal s).1 (item_raw_data_and_subtotal s).2
         s.precision s.item_tax_rate).2]

def transactions_blocks (s : SimpleInvoice) : List Block :=
  if (transactions_data s).isEmpty then []
  else [Block.para "Transaction" "Heading1", Block.tableWithHeader (transactions_data s) "LEFT" []]

def bottom_tip_blocks (s : SimpleInvoice) : List Block :=
  if truthy s.bottom_tip then
    [Block.spacer 5 5, Block.bottomTipPara (stringOfVal s.bottom_tip) s.bottom_tip_align]
  else []

lemma build_logo_eq (s : SimpleInvoice) :
    build_logo s = { s with story := s.story ++ logo_blocks s } := by
  obtain ⟨pr, ii, sp, ci, ip, it, tr, tx, st, bt, ba, lg, bk⟩ := s
  unfold build_logo logo_blocks
  cases lg <;> simp

lemma build_invoice_info_eq (s : SimpleInvoice) :
    build_invoice_info s = { s with story := s.story ++ invoice_info_blocks s } := by
  obtain ⟨pr, ii, sp, ci, ip, it, tr, tx, st, bt, ba, lg, bk⟩ := s
  unfold build_invoice_info invoice_info_blocks
  by_cases h : (invoice_info_data ⟨pr, ii, sp, ci, ip, it, tr, tx, st, bt, ba, lg, bk⟩).isEmpty <;>
    simp [h]

lemma build_service_provider_info_eq (s : SimpleInvoice) :
    build_service_provider_info s = { s with story := s.story ++ service_provider_blocks s } := by
  obtain ⟨pr, ii, sp, ci, ip, it, tr, tx, st, bt, ba, lg, bk⟩ := s
  unfold build_service_provider_info service_provider_blocks
  by_cases h :
      (service_provider_data ⟨pr, ii, sp, ci, ip, it, tr, tx, st, bt, ba, lg, bk⟩).isEmpty <;>
    simp [h]

lemma build_client_info_eq (s : SimpleInvoice) :
    build_client_info s = { s with story := s.story ++ client_blocks s } := by
  obtain ⟨pr, ii, sp, ci, ip, it, tr, tx, st, bt, ba, lg, bk⟩ := s
  unfold build_client_info client_blocks
  by_cases h : (client_info_data ⟨pr, ii, sp, ci, ip, it, tr, tx, st, bt, ba, lg, bk⟩).isEmpty <;>
    simp [h]

lemma build_spc_eq (s : SimpleInvoice) :
    build_service_provider_and_client_info s = { s with story := s.story ++ party_blocks s } := by
  obtain ⟨pr, ii, sp, ci, ip, it, tr, tx, st, bt, ba, lg, bk⟩ := s
  unfold build_service_provider_and_client_info party_blocks
  cases sp <;> cases ci <;>
    simp [build_client_info_eq, build_service_provider_info_eq,
      client_blocks, service_provider_blocks, client_info_data, service_provider_data]

lemma items_summary_fst_ne_nil (d0 : List (List Cell)) (sub p : Dec) (r : Option Dec) :
    (items_summary d0 sub p r).1 ≠ [] := by
  unfold items_summary
  rcases r with _ | rate <;> simp

lemma build_items_eq (s : SimpleInvoice) :
    build_items s = { s with story := s.story ++ items_blocks s } := by
  obtain ⟨pr, ii, sp, ci, ip, it, tr, tx, st, bt, ba, lg, bk⟩ := s
  unfold build_items item_data_and_style items_blocks
  rcases h : item_raw_data_and_subtotal ⟨pr, ii, sp, ci, ip, it, tr, tx, st, bt, ba, lg, bk⟩ with
    ⟨data, sub⟩
  by_cases hd : data.isEmpty <;> simp [hd, items_summary_fst_ne_nil]

lemma build_transactions_eq (s : SimpleInvoice) :
    build_transactions s = { s with story := s.story ++ transactions_blocks s } := by
  obtain ⟨pr, ii, sp, ci, ip, it, tr, tx, st, bt, ba, lg, bk⟩ := s
  unfold build_transactions transactions_blocks
  by_cases h : (transactions_data ⟨pr, ii, sp, ci, ip, it, tr, tx, st, bt, ba, lg, bk⟩).isEmpty <;>
    simp [h]

lemma build_bottom_tip_eq (s : SimpleInvoice) :
    build_bottom_tip s = { s with story := s.story ++ bottom_tip_blocks s } := by
  obtain ⟨pr, ii, sp, ci, ip, it, tr, tx, st, bt, ba, lg, bk⟩ := s
  unfold build_bottom_tip bottom_tip_blocks
  by_cases h : truthy bt <;> simp [h]

lemma build_paid_stamp_eq (s : SimpleInvoice) :
    build_paid_stamp s =
      { s with build_kwargs :=
          if s.is_paid then some ⟨3 * inch, -2 * inch⟩ else s.build_kwargs } := by
  obtain ⟨pr, ii, sp, ci, ip, it, tr, tx, st, bt, ba, lg, bk⟩ := s
  unfold build_paid_stamp
  by_cases h : ip <;> simp [h]

/-- The whole assembly pass: `finish` appends the section block lists in
the fixed order and records the paid decoration in the build kwargs. -/
lemma finish_eq (s : SimpleInvoice) :
    finish s =
      { s with
        story := s.story ++ logo_blocks s ++ invoice_info_blocks s ++ party_blocks s ++
          items_blocks s ++ transactions_blocks s ++ bottom_tip_blocks s,
        build_kwargs := if s.is_paid then some ⟨3 * inch, -2 * inch⟩ else s.build_kwargs } := by
  unfold finish
  rw [build_logo_eq, build_invoice_info_eq, build_spc_eq, build_items_eq,
    build_transactions_eq, build_bottom_tip_eq, build_paid_stamp_eq]
  rfl

/-- The display row of a single `Item`. -/
def item_row (i : Item) : List Cell :=
  [Cell.text i.name, Cell.para i.description "TableParagraph",
   Cell.text (toString i.units), Cell.text (format2f i.unit_price),
   Cell.text (format2f i.amount)]

/-- Declarative form of the item table body: one row per stored `Item`,
in insertion order, skipping non-items. -/
def item_rows (s : SimpleInvoice) : List (List Cell) :=
  s.items.filterMap
    (fun o => match o with | .item i => some (item_row i) | _ => Option.none)

/-- Declarative form of the raw (unrounded) running subtotal. -/
def raw_subtotal (s : SimpleInvoice) : Dec :=
  (s.items.filterMap
    (fun o => match o with | .item i => some i.amount | _ => Option.none)).foldl
    decAdd ⟨0, 0⟩

lemma item_raw_foldl_general (l : List PyObj) (acc : List (List Cell) × Dec) :
    l.foldl
      (fun (acc : List (List Cell) × Dec) obj =>
        match obj with
        | .item item =>
            (acc.1 ++
              [[Cell.text item.name,
                Cell.para item.description "TableParagraph",
                Cell.text (toString item.units),
                Cell.text (format2f item.unit_price),
                Cell.text (format2f item.amount)]],
             decAdd acc.2 item.amount)
        | _ => acc) acc =
    (acc.1 ++
      l.filterMap (fun o => match o with | .item i => some (item_row i) | _ => Option.none),
     (l.filterMap (fun o => match o with | .item i => some i.amount | _ => Option.none)).foldl
       decAdd acc.2) := by
  induction l generalizing acc with
  | nil => simp
  | cons hd tl ih =>
    cases hd with
    | item i => simp [ih, item_row]
    | transaction t => simp [ih]
    | other o => simp [ih]

/-- The imperative accumulation of `_item_raw_data_and_subtotal` equals
its declarative description. -/
lemma item_raw_data_and_subtotal_eq (s : SimpleInvoice) :
    item_raw_data_and_subtotal s = (item_rows s, raw_subtotal s) := by
  unfold item_raw_data_and_subtotal item_rows raw_subtotal
  simpa using item_raw_foldl_general s.items ([], ⟨0, 0⟩)

/-- Unfolding `items_summary` with a configured tax rate, written out: title row,
item rows, then `Subtotal`, `Vat/Tax` and `Total` rows, with the three
span / right-align directive pairs. -/
lemma items_summary_some_eq (d0 : List (List Cell)) (sub p rate : Dec) :
    items_summary d0 sub p (some rate) =
      (item_data_title :: d0 ++
        [[Cell.text "Subtotal", Cell.text "", Cell.text "", Cell.text "",
          Cell.text (format2f (getroundeddecimal sub p))],
         [Cell.text ("Vat/Tax (" ++ decRepr rate ++ "%)"), Cell.text "", Cell.text "",
          Cell.text "", Cell.text (format2f (getroundeddecimal (decMul sub (decDiv100 rate)) p))],
         [Cell.text "Total", Cell.text "", Cell.text "", Cell.text "",
          Cell.text (format2f (getroundeddecimal
            (decAdd sub
              (if (decMul sub (decDiv100 rate)).man ≠ 0 then decMul sub (decDiv100 rate)
               else ⟨0, 0⟩))
            p))]],
       [StyleCmd.span 0 ((d0.length : Int) + 1) 3 ((d0.length : Int) + 1),
        StyleCmd.align 0 ((d0.length : Int) + 1) (-2) (-1) "RIGHT",
        StyleCmd.span 0 ((d0.length : Int) + 2) 3 ((d0.length : Int) + 2),
        StyleCmd.align 0 ((d0.length : Int) + 2) (-2) (-1) "RIGHT",
        StyleCmd.span 0 ((d0.length : Int) + 3) 3 ((d0.length : Int) + 3),
        StyleCmd.align 0 ((d0.length : Int) + 3) (-2) (-1) "RIGHT"]) := by
  unfold items_summary
  simp [item_data_title, List.append_assoc]
  refine ⟨?_, ?_⟩ <;> ring_nf

/-- Shared characterization of `_item_data_and_style` when items exist and
a tax rate is configured. -/
lemma item_data_and_style_some (s : SimpleInvoice) (rate : Dec)
    (hrate : s.item_tax_rate = some rate) (hne : item_rows s ≠ []) :
    (item_data_and_style s).2.1 =
      item_data_title :: item_rows s ++
        [[Cell.text "Subtotal", Cell.text "", Cell.text "", Cell.text "",
          Cell.text (format2f (getroundeddecimal (raw_subtotal s) s.precision))],
         [Cell.text ("Vat/Tax (" ++ decRepr rate ++ "%)"), Cell.text "", Cell.text "",
          Cell.text "",
          Cell.text (format2f (getroundeddecimal
            (decMul (raw_subtotal s) (decDiv100 rate)) s.precision))],
         [Cell.text "Total", Cell.text "", Cell.text "", Cell.text "",
          Cell.text (format2f (getroundeddecimal
            (decAdd (raw_subtotal s)
              (if (decMul (raw_subtotal s) (decDiv100 rate)).man ≠ 0 then
                 decMul (raw_subtotal s) (decDiv100 rate)
               else ⟨0, 0⟩))
            s.precision))]] := by
  unfold item_data_and_style
  rw [item_raw_data_and_subtotal_eq s]
  have hemp : (item_rows s).isEmpty = false := by
    simpa [List.isEmpty_iff] using hne
  rw [hrate]
  simp [hemp, items_summary_some_eq]

/-! ## Theorems -/

/-- Claim C4: Rounding at step `0.01` is idempotent: quantizing an
already-quantized value at the same precision returns it unchanged,
`round(round(x, 0.01), 0.01) = round(x, 0.01)`. -/
theorem claim_C4_idempotent (x : Dec) :
    getroundeddecimal (getroundeddecimal x ⟨1, 2⟩) ⟨1, 2⟩ = getroundeddecimal x ⟨1, 2⟩ := by
  simp only [getroundeddecimal]
  split <;> simp

/-- Claim C7: `add_item` on a non-`Item` argument and `add_transaction` on a
non-`Transaction` argument leave the state (in particular the stored item
and transaction lists) unchanged, and raise nothing: both embedded
operations are total functions that return the state as-is. -/
theorem claim_C7_silent_drop (s : SimpleInvoice) (o o' : PyObj)
    (h : isItem o = false) (h' : isTransaction o' = false) :
    add_item s o = s ∧ add_transaction s o' = s := by
  constructor
  · cases o <;> simp_all [isItem, add_item]
  · cases o' <;> simp_all [isTransaction, add_transaction]

/-- Witness for C7 at a concrete non-`Item` / non-`Transaction` argument. -/
theorem claim_C7_witness :
    add_item {} (.other "not an item") = {} ∧
    add_transaction {} (.other "not a transaction") = {} :=
  claim_C7_silent_drop {} (.other "not an item") (.other "not a transaction") rfl rfl

/-- Claim C3 counterexample: At value `0.06` and precision step `0.05`, the
code returns `0.06` unchanged — a value lying strictly between the
consecutive multiples `1 * 0.05` and `2 * 0.05` of the step, hence not a
multiple of the step at all, let alone the nearest one.  (Python
`Decimal.quantize` rounds to the precision's *exponent*, not to a multiple
of its value.) -/
theorem claim_C3_counterexample :
    getroundeddecimal ⟨6, 2⟩ ⟨5, 2⟩ = ⟨6, 2⟩ ∧
    decVal ⟨5, 2⟩ * 1 < decVal (getroundeddecimal ⟨6, 2⟩ ⟨5, 2⟩) ∧
    decVal (getroundeddecimal ⟨6, 2⟩ ⟨5, 2⟩) < decVal ⟨5, 2⟩ * 2 := by
  refine ⟨by decide, ?_, ?_⟩ <;>
    norm_num [getroundeddecimal, decVal, roundHalfUpInt, roundHalfUpNat]

lemma two_dvd_ten_pow {k : Nat} (hk : 0 < k) : 2 ∣ 10 ^ k :=
  dvd_pow (by norm_num) (Nat.pos_iff_ne_zero.mp hk)

/-- Bounds for round-half-up division: the chosen multiple is within half a
step below-or-equal and strictly more than half a step above. -/
lemma roundHalfUpNat_bounds (n d : Nat) (h2 : 2 ∣ d) (hd : 0 < d) :
    2 * (roundHalfUpNat n d * d) ≤ 2 * n + d ∧ 2 * n < 2 * (roundHalfUpNat n d * d) + d := by
  have hhalf : d / 2 * 2 = d := Nat.div_mul_cancel h2
  have h1 : roundHalfUpNat n d * d ≤ n + d / 2 := Nat.div_mul_le_self _ _
  have h2' : n + d / 2 < roundHalfUpNat n d * d + d := Nat.lt_div_mul_add hd
  omega

/-- Signed version: `roundHalfUpInt m d * d` is within `d/2` of `m`
(scaled by 2 to stay in integers), and the half-step distance is attained
only on the away-from-zero side. -/
lemma roundHalfUpInt_bounds (m : Int) (d : Nat) (h2 : 2 ∣ d) (hd : 0 < d) :
    (2 * (m - roundHalfUpInt m d * d)).natAbs ≤ d ∧
    ((2 * (m - roundHalfUpInt m d * d)).natAbs = d →
      (roundHalfUpInt m d * d).natAbs = m.natAbs + d / 2) := by
  have hhalf : d / 2 * 2 = d := Nat.div_mul_cancel h2
  obtain ⟨hb1, hb2⟩ := roundHalfUpNat_bounds m.natAbs d h2 hd
  have hcast : ((roundHalfUpNat m.natAbs d : Int)) * (d : Int) =
      ((roundHalfUpNat m.natAbs d * d : Nat) : Int) := by push_cast; ring
  unfold roundHalfUpInt
  split
  · simp only [neg_mul]
    omega
  · omega

lemma qdiv_shift (k : Int) (f g : Nat) (h : g ≤ f) :
    (k : ℚ) / 10 ^ g = ((k * 10 ^ (f - g) : Int) : ℚ) / 10 ^ f := by
  have h10 : (10 : ℚ) ^ f = 10 ^ g * 10 ^ (f - g) := by
    rw [← pow_add]
    congr 1
    omega
  push_cast
  rw [h10]
  rw [mul_div_mul_right _ _ (pow_ne_zero _ (by norm_num : (10:ℚ) ≠ 0))]

lemma decVal_sub_grid (m : Int) (f g : Nat) (h : g ≤ f) (k : Int) :
    (m : ℚ) / 10 ^ f - (k : ℚ) / 10 ^ g =
      ((m - k * (10 ^ (f - g) : Nat) : Int) : ℚ) / 10 ^ f := by
  rw [show ((m - k * (10 ^ (f - g) : Nat) : Int) : ℚ) =
        ((m : ℚ)) - ((k * (10 ^ (f - g) : Int) : Int) : ℚ) from by push_cast; ring,
      sub_div, qdiv_shift k f g h]

lemma abs_int_div_pow (a : Int) (f : Nat) :
    |(a : ℚ) / 10 ^ f| = (a.natAbs : ℚ) / 10 ^ f := by
  rw [abs_div, abs_of_pos (by positivity : (0:ℚ) < 10 ^ f), Int.cast_natAbs, Int.cast_abs]

/-- Claim C3, amended: `getroundeddecimal` rounds to the *decimal-place
grid* of the precision operand (the multiples of `10^(-exp precision)`,
i.e. the nearest multiple of the step only when the step is a power of
ten): the result lies on that grid, is at least as close to the input as
every grid point, an exact half-step tie is resolved away from zero, and
the spec's concrete examples `round(1.005, 0.01) = 1.01`,
`round(1.004, 0.01) = 1.00` hold. -/
theorem claim_C3_round_half_up (v p : Dec) :
    (getroundeddecimal v p).exp = p.exp ∧
    (∀ k : Int,
      |decVal v - decVal (getroundeddecimal v p)| ≤ |decVal v - (k : ℚ) / 10 ^ p.exp|) ∧
    (|decVal v - decVal (getroundeddecimal v p)| = 1 / (2 * 10 ^ p.exp) →
      |decVal (getroundeddecimal v p)| = |decVal v| + 1 / (2 * 10 ^ p.exp)) ∧
    getroundeddecimal ⟨1005, 3⟩ ⟨1, 2⟩ = ⟨101, 2⟩ ∧
    getroundeddecimal ⟨1004, 3⟩ ⟨1, 2⟩ = ⟨100, 2⟩ := by
  by_cases hfg : v.exp ≤ p.exp
  · -- exact case: the value is representable on the target grid
    have hr : getroundeddecimal v p = ⟨v.man * 10 ^ (p.exp - v.exp), p.exp⟩ := by
      unfold getroundeddecimal
      rw [if_pos hfg]
    have hval : decVal (getroundeddecimal v p) = decVal v := by
      rw [hr]
      show ((v.man * 10 ^ (p.exp - v.exp) : Int) : ℚ) / 10 ^ p.exp = (v.man : ℚ) / 10 ^ v.exp
      exact (qdiv_shift v.man p.exp v.exp hfg).symm
    refine ⟨by rw [hr], ?_, ?_, by decide, by decide⟩
    · intro k
      rw [hval, sub_self, abs_zero]
      exact abs_nonneg _
    · intro htie
      rw [hval, sub_self, abs_zero] at htie
      have : (0:ℚ) < 1 / (2 * 10 ^ p.exp) := by positivity
      exact absurd htie.symm (ne_of_gt this)
  · push_neg at hfg
    set d : Nat := 10 ^ (v.exp - p.exp) with hddef
    have hd : 0 < d := pow_pos (by norm_num) _
    have h2 : 2 ∣ d := two_dvd_ten_pow (by omega)
    have hr : getroundeddecimal v p = ⟨roundHalfUpInt v.man d, p.exp⟩ := by
      unfold getroundeddecimal
      rw [if_neg (by omega)]
    obtain ⟨hb1, hb2⟩ := roundHalfUpInt_bounds v.man d h2 hd
    set q : Int := roundHalfUpInt v.man d with hqdef
    have hdiff : ∀ k : Int,
        decVal v - (k : ℚ) / 10 ^ p.exp = ((v.man - k * (d : Int) : Int) : ℚ) / 10 ^ v.exp := by
      intro k
      simp only [decVal]
      exact decVal_sub_grid v.man v.exp p.exp (by omega) k
    have hrv : decVal (getroundeddecimal v p) = (q : ℚ) / 10 ^ p.exp := by
      rw [hr]
      rfl
    have hpow : (10 : ℚ) ^ v.exp = 10 ^ p.exp * (d : ℚ) := by
      rw [hddef]
      push_cast
      rw [← pow_add]
      congr 1
      omega
    refine ⟨by rw [hr], ?_, ?_, by decide, by decide⟩
    · intro k
      rw [hrv, hdiff q, hdiff k, abs_int_div_pow, abs_int_div_pow,
        div_le_div_iff_of_pos_right (by positivity : (0:ℚ) < 10 ^ v.exp), Nat.cast_le]
      rcases eq_or_ne k q with rfl | hk
      · exact le_refl _
      · have h1 : (1:Int) ≤ |k - q| := Int.one_le_abs (sub_ne_zero.mpr hk)
        have habs1 : 2 * |v.man - q * (d:Int)| ≤ (d:Int) := by
          have hc : ((2 * (v.man - q * (d:Int))).natAbs : Int) ≤ (d : Int) := by
            exact_mod_cast hb1
          rw [← Int.abs_eq_natAbs, abs_mul] at hc
          simpa using hc
        have hdist : (d:Int) ≤ |k - q| * (d:Int) :=
          le_mul_of_one_le_left (by positivity) h1
        have htri : |k - q| * (d:Int) ≤ |v.man - q*(d:Int)| + |v.man - k*(d:Int)| := by
          calc |k - q| * (d:Int) = |(k - q) * (d:Int)| := by
                rw [abs_mul, abs_of_nonneg (by positivity : (0:Int) ≤ (d:Int))]
            _ = |(v.man - q*(d:Int)) - (v.man - k*(d:Int))| := by ring_nf
            _ ≤ |v.man - q*(d:Int)| + |v.man - k*(d:Int)| := abs_sub _ _
        have hfin : |v.man - q*(d:Int)| ≤ |v.man - k*(d:Int)| := by linarith
        rw [Int.abs_eq_natAbs, Int.abs_eq_natAbs] at hfin
        exact_mod_cast hfin
    · intro htie
      rw [hrv, hdiff q, abs_int_div_pow] at htie
      have hP : (0:ℚ) < 10 ^ p.exp := by positivity
      have hnat : 2 * (v.man - q * (d:Int)).natAbs = d := by
        have h1 : ((v.man - q * (d:Int)).natAbs : ℚ) * (2 * 10 ^ p.exp) = 10 ^ v.exp := by
          field_simp at htie
          linarith
        rw [hpow] at h1
        have h2' : ((v.man - q * (d:Int)).natAbs : ℚ) * 2 = (d:ℚ) := by
          have := mul_left_cancel₀ (ne_of_gt hP)
            (show (10:ℚ) ^ p.exp * (((v.man - q * (d:Int)).natAbs : ℚ) * 2) =
                  10 ^ p.exp * (d:ℚ) from by linarith [h1])
          exact this
        exact_mod_cast (by linarith [h2'] : ((2 * (v.man - q * (d:Int)).natAbs :ℚ)) = (d:ℚ))
      have htieN : (2 * (v.man - q * (d:Int))).natAbs = d := by
        rw [Int.natAbs_mul]
        simpa using hnat
      have hq2 := hb2 htieN
      rw [hrv, abs_int_div_pow]
      have hv : |decVal v| = (v.man.natAbs : ℚ) / 10 ^ v.exp := by
        simp only [decVal]
        exact abs_int_div_pow v.man v.exp
      rw [hv]
      have hcastd2 : ((d / 2 : Nat) : ℚ) = (d : ℚ) / 2 :=
        Nat.cast_div h2 (by norm_num)
      have hqd : (q.natAbs : ℚ) * (d:ℚ) = (v.man.natAbs : ℚ) + (d:ℚ)/2 := by
        have hmul : (q * (d:Int)).natAbs = q.natAbs * d := by
          rw [Int.natAbs_mul]
          simp
        rw [hmul] at hq2
        have : ((q.natAbs * d : Nat) : ℚ) = ((v.man.natAbs + d / 2 : Nat) : ℚ) := by
          exact_mod_cast congrArg (Nat.cast (R := ℚ)) hq2
        push_cast at this
        rw [hcastd2] at this
        exact this
      rw [hpow]
      have hdQ : (0:ℚ) < (d:ℚ) := by exact_mod_cast hd
      field_simp
      linear_combination (2 * (10:ℚ) ^ p.exp * (10:ℚ) ^ p.exp) * hqd

/-- Witness for C3 at concrete inputs: the rounded value of `1.005` at
precision `0.01` is at least as close to `1.005` as the grid point
`100/10^2 = 1.00`. -/
theorem claim_C3_witness :
    |decVal ⟨1005, 3⟩ - decVal (getroundeddecimal ⟨1005, 3⟩ ⟨1, 2⟩)| ≤
      |decVal ⟨1005, 3⟩ - ((100 : Int) : ℚ) / 10 ^ (2 : Nat)| :=
  (claim_C3_round_half_up ⟨1005, 3⟩ ⟨1, 2⟩).2.1 100

lemma attribute_foldl_eq (pairs : List (PyVal × String)) (acc : List (List Cell)) :
    pairs.foldl
      (fun data pv =>
        if truthy pv.1 then
          data ++ [[Cell.text (pv.2 ++ ":"), cellOfVal (format_value pv.1)]]
        else data) acc =
    acc ++ pairs.filterMap
      (fun pv =>
        if truthy pv.1 then
          some [Cell.text (pv.2 ++ ":"), cellOfVal (format_value pv.1)]
        else Option.none) := by
  induction pairs generalizing acc with
  | nil => simp
  | cons hd tl ih =>
    simp only [List.foldl_cons, List.filterMap_cons]
    by_cases h : truthy hd.1 <;> simp [h, ih]

/-- Claim C5: The attribute-table builder emits exactly one
`['<label>:', formatted value]` row per truthy field, in the original
field order, and no row for a falsy field (it equals the order-preserving
`filterMap` of the pair list); datetime values are formatted
`YYYY-MM-DD HH:MM` and date values `YYYY-MM-DD` (zero-padded) before
insertion. -/
theorem claim_C5_sparse_rows (pairs : List (PyVal × String)) (y mo d h mi : Nat) :
    attribute_to_table_data pairs =
      pairs.filterMap
        (fun pv =>
          if truthy pv.1 then
            some [Cell.text (pv.2 ++ ":"), cellOfVal (format_value pv.1)]
          else Option.none) ∧
    format_value (.datetime y mo d h mi) =
      .str (pad4 y ++ "-" ++ pad2 mo ++ "-" ++ pad2 d ++ " " ++ pad2 h ++ ":" ++ pad2 mi) ∧
    format_value (.date y mo d) = .str (pad4 y ++ "-" ++ pad2 mo ++ "-" ++ pad2 d) := by
  refine ⟨?_, ?_, ?_⟩
  · have := attribute_foldl_eq pairs []
    simpa [attribute_to_table_data] using this
  · show PyVal.str (strftime "%Y-%m-%d %H:%M" y mo d h mi) = _
    simp [strftime, strftimeChars, String.singleton, String.append_assoc,
      show ("".push '-') = "-" from rfl, show ("".push ' ') = " " from rfl,
      show ("".push ':') = ":" from rfl]
  · show PyVal.str (strftime "%Y-%m-%d" y mo d 0 0) = _
    simp [strftime, strftimeChars, String.singleton, String.append_assoc,
      show ("".push '-') = "-" from rfl]

lemma decAdd_zero (a : Dec) : decAdd a ⟨0, 0⟩ = a := by
  cases a
  simp [decAdd]

lemma decMul_rate_zero (a : Dec) : decMul a (decDiv100 ⟨0, 0⟩) = ⟨0, a.exp + 2⟩ := by
  simp [decMul, decDiv100]

lemma getroundeddecimal_zero (e : Nat) (p : Dec) :
    getroundeddecimal ⟨0, e⟩ p = ⟨0, p.exp⟩ := by
  simp only [getroundeddecimal]
  split
  · simp
  · have hd : 0 < 10 ^ (e - p.exp) := pow_pos (by norm_num) _
    have hlt : 10 ^ (e - p.exp) / 2 < 10 ^ (e - p.exp) := Nat.div_lt_self hd (by norm_num)
    simp [roundHalfUpInt, roundHalfUpNat, Nat.div_eq_of_lt hlt]

lemma format2f_zero (e : Nat) : format2f ⟨0, e⟩ = "0.00" := by
  unfold format2f
  by_cases h : e ≤ 2
  · simp [h]
    rfl
  · have hd : 0 < 10 ^ (e - 2) := pow_pos (by norm_num) _
    simp [h, roundHalfEvenInt, roundHalfEvenNat, Nat.not_lt.mpr (Nat.le_of_lt hd)]
    rfl

/-- The worked example of the spec: items with amounts `10.00` and
`20.005`, tax rate `10`, default precision `0.01`. -/
def exampleItemsState : SimpleInvoice :=
  { items := [.item ⟨"item a", "desc a", 1, ⟨10, 0⟩, ⟨1000, 2⟩⟩,
              .item ⟨"item b", "desc b", 1, ⟨20, 0⟩, ⟨20005, 3⟩⟩],
    item_tax_rate := some ⟨10, 0⟩ }

/-- A state on which the two total policies disagree: one item of amount
`0.004` and tax rate `100`. -/
def totalPolicyState : SimpleInvoice :=
  { items := [.item ⟨"item a", "desc a", 1, ⟨10, 0⟩, ⟨4, 3⟩⟩],
    item_tax_rate := some ⟨100, 0⟩ }

/-- Claim C1 counterexample: On `totalPolicyState` (amounts `[0.004]`,
rate `100`, precision `0.01`) the printed Total row of the code is
`0.01` — the rounding of the raw sum `0.004 + 0.004 = 0.008` — while the
claim's policy, already-rounded subtotal (`0.00`) plus already-rounded tax
(`0.00`) re-rounded, prints `0.00`. -/
theorem claim_C1_counterexample :
    (item_data_and_style totalPolicyState).2.1.getLast? =
      some [Cell.text "Total", Cell.text "", Cell.text "", Cell.text "",
            Cell.text "0.01"] ∧
    format2f
      (getroundeddecimal
        (decAdd
          (getroundeddecimal (item_raw_data_and_subtotal totalPolicyState).2
            totalPolicyState.precision)
          (getroundeddecimal
            (decMul (item_raw_data_and_subtotal totalPolicyState).2 (decDiv100 ⟨100, 0⟩))
            totalPolicyState.precision))
        totalPolicyState.precision) = "0.00" := by decide

/-- Claim C1, amended: With items present and a tax rate configured, the
items table is the title row, the item rows, and then `Subtotal`,
`Vat/Tax`, `Total` rows where the Total figure is the rounding of the
*raw* sum `item_subtotal + raw tax` (a falsy/zero tax contributing
`Decimal('0')`) — not the sum of the already-rounded subtotal and tax
figures.  On the spec's example `[10.00, 20.005]` at rate `10` the printed
rows are `30.01`, `3.00`, `33.01` (there the two policies coincide). -/
theorem claim_C1_total_policy (s : SimpleInvoice) (rate : Dec)
    (hrate : s.item_tax_rate = some rate) (hne : item_rows s ≠ []) :
    ((item_data_and_style s).2.1 =
      item_data_title :: item_rows s ++
        [[Cell.text "Subtotal", Cell.text "", Cell.text "", Cell.text "",
          Cell.text (format2f (getroundeddecimal (raw_subtotal s) s.precision))],
         [Cell.text ("Vat/Tax (" ++ decRepr rate ++ "%)"), Cell.text "", Cell.text "",
          Cell.text "",
          Cell.text (format2f (getroundeddecimal
            (decMul (raw_subtotal s) (decDiv100 rate)) s.precision))],
         [Cell.text "Total", Cell.text "", Cell.text "", Cell.text "",
          Cell.text (format2f (getroundeddecimal
            (decAdd (raw_subtotal s)
              (if (decMul (raw_subtotal s) (decDiv100 rate)).man ≠ 0 then
                 decMul (raw_subtotal s) (decDiv100 rate)
               else ⟨0, 0⟩))
            s.precision))]]) ∧
    (item_data_and_style exampleItemsState).2.1 =
      [item_data_title,
       item_row ⟨"item a", "desc a", 1, ⟨10, 0⟩, ⟨1000, 2⟩⟩,
       item_row ⟨"item b", "desc b", 1, ⟨20, 0⟩, ⟨20005, 3⟩⟩,
       [Cell.text "Subtotal", Cell.text "", Cell.text "", Cell.text "", Cell.text "30.01"],
       [Cell.text "Vat/Tax (10%)", Cell.text "", Cell.text "", Cell.text "",
        Cell.text "3.00"],
       [Cell.text "Total", Cell.text "", Cell.text "", Cell.text "", Cell.text "33.01"]] :=
  ⟨item_data_and_style_some s rate hrate hne, by decide⟩

/-- Witness for C1 at the spec's worked example state. -/
theorem claim_C1_witness :
    (item_data_and_style exampleItemsState).2.1 =
      item_data_title :: item_rows exampleItemsState ++
        [[Cell.text "Subtotal", Cell.text "", Cell.text "", Cell.text "",
          Cell.text (format2f
            (getroundeddecimal (raw_subtotal exampleItemsState) exampleItemsState.precision))],
         [Cell.text ("Vat/Tax (" ++ decRepr ⟨10, 0⟩ ++ "%)"), Cell.text "", Cell.text "",
          Cell.text "",
          Cell.text (format2f (getroundeddecimal
            (decMul (raw_subtotal exampleItemsState) (decDiv100 ⟨10, 0⟩))
            exampleItemsState.precision))],
         [Cell.text "Total", Cell.text "", Cell.text "", Cell.text "",
          Cell.text (format2f (getroundeddecimal
            (decAdd (raw_subtotal exampleItemsState)
              (if (decMul (raw_subtotal exampleItemsState) (decDiv100 ⟨10, 0⟩)).man ≠ 0 then
                 decMul (raw_subtotal exampleItemsState) (decDiv100 ⟨10, 0⟩)
               else ⟨0, 0⟩))
            exampleItemsState.precision))]] :=
  (claim_C1_total_policy exampleItemsState ⟨10, 0⟩ rfl (by decide)).1

/-- A state with a zero tax rate and one item of amount `10.00`. -/
def zeroRateState : SimpleInvoice :=
  { items := [.item ⟨"item a", "desc a", 1, ⟨10, 0⟩, ⟨1000, 2⟩⟩],
    item_tax_rate := some ⟨0, 0⟩ }

/-- Claim C10: With items present and the tax rate set to exactly `0`
(`Decimal('0')`), a `Vat/Tax (0%)` row with amount `0.00` is still
emitted — the presence check is rate-is-not-`None` — while the Total row
prints exactly the rounded item subtotal (the zero tax is falsy and
contributes `Decimal('0')` to the total). -/
theorem claim_C10_zero_rate (s : SimpleInvoice)
    (hrate : s.item_tax_rate = some ⟨0, 0⟩) (hne : item_rows s ≠ []) :
    (item_data_and_style s).2.1 =
      item_data_title :: item_rows s ++
        [[Cell.text "Subtotal", Cell.text "", Cell.text "", Cell.text "",
          Cell.text (format2f (getroundeddecimal (raw_subtotal s) s.precision))],
         [Cell.text "Vat/Tax (0%)", Cell.text "", Cell.text "", Cell.text "",
          Cell.text "0.00"],
         [Cell.text "Total", Cell.text "", Cell.text "", Cell.text "",
          Cell.text (format2f (getroundeddecimal (raw_subtotal s) s.precision))]] := by
  rw [item_data_and_style_some s ⟨0, 0⟩ hrate hne]
  rw [decMul_rate_zero]
  simp [getroundeddecimal_zero, format2f_zero, decAdd_zero, decRepr]
  decide

/-- Witness for C10 at a concrete zero-rate state. -/
theorem claim_C10_witness :
    (item_data_and_style zeroRateState).2.1 =
      item_data_title :: item_rows zeroRateState ++
        [[Cell.text "Subtotal", Cell.text "", Cell.text "", Cell.text "",
          Cell.text (format2f
            (getroundeddecimal (raw_subtotal zeroRateState) zeroRateState.precision))],
         [Cell.text "Vat/Tax (0%)", Cell.text "", Cell.text "", Cell.text "",
          Cell.text "0.00"],
         [Cell.text "Total", Cell.text "", Cell.text "", Cell.text "",
          Cell.text (format2f
            (getroundeddecimal (raw_subtotal zeroRateState) zeroRateState.precision))]] :=
  claim_C10_zero_rate zeroRateState rfl (by decide)

/-- A provider with 2 populated fields. -/
def exampleProvider2 : ServiceProviderInfo :=
  ⟨.str "Prov", .str "PStreet", .none, .none, .none, .none, .none⟩

/-- A client with 5 populated fields. -/
def exampleClient5 : ClientInfo :=
  ⟨.str "Cli", .str "CStreet", .str "CCity", .str "CState", .str "CCountry",
   .none, .none, .none⟩

/-- Both parties present: provider contributes 2 sparse rows, client 5. -/
def mergeBugState : SimpleInvoice :=
  { service_provider_info := some exampleProvider2, client_info := some exampleClient5 }

/-- Claim C2, evaluation at the failing input: With a provider of 2 sparse
rows and a client of 5, the merged party grid of the code has only
`1 + 3 = 4` rows — not the claimed 1 header + 5 data rows — and its last
row is 9 cells wide: the provider-shorter branch pads with the *single*
row `["", ""] * 3` (six blanks) instead of three separate `["", ""]`
rows, so the zip truncates to 3 data rows and the padded row bloats. -/
theorem claim_C2_failing_input :
    (service_provider_data mergeBugState).length = 2 ∧
    (client_info_data mergeBugState).length = 5 ∧
    (merge_party_table_data (service_provider_data mergeBugState)
        (client_info_data mergeBugState)).length = 4 ∧
    ((merge_party_table_data (service_provider_data mergeBugState)
        (client_info_data mergeBugState)).getLast?).map List.length = some 9 ∧
    (build_service_provider_and_client_info mergeBugState).story =
      [Block.table
        (merge_party_table_data (service_provider_data mergeBugState)
          (client_info_data mergeBugState))
        party_table_style] := by decide

lemma items_blocks_nil {s : SimpleInvoice} (h : s.items = []) : items_blocks s = [] := by
  simp [items_blocks, item_raw_data_and_subtotal, h]

lemma transactions_blocks_nil {s : SimpleInvoice} (h : s.transactions = []) :
    transactions_blocks s = [] := by
  simp [transactions_blocks, transactions_data, h]

lemma mem_logo_blocks {s : SimpleInvoice} {b : Block} (h : b ∈ logo_blocks s) :
    b = Block.image := by
  unfold logo_blocks at h
  cases hl : s.logo <;> rw [hl] at h <;> simp_all

lemma mem_invoice_info_blocks {s : SimpleInvoice} {b : Block}
    (h : b ∈ invoice_info_blocks s) :
    b = Block.para "Invoice" "RightHeading1" ∨ ∃ d, b = Block.simpleTable d "RIGHT" := by
  unfold invoice_info_blocks at h
  by_cases hc : (invoice_info_data s).isEmpty
  · simp [hc] at h
  · simp [hc] at h
    rcases h with rfl | rfl
    · exact Or.inl rfl
    · exact Or.inr ⟨_, rfl⟩

lemma mem_service_provider_blocks {s : SimpleInvoice} {b : Block}
    (h : b ∈ service_provider_blocks s) :
    b = Block.para "Service Provider" "RightHeading1" ∨
      ∃ d, b = Block.simpleTable d "RIGHT" := by
  unfold service_provider_blocks at h
  by_cases hc : (service_provider_data s).isEmpty
  · simp [hc] at h
  · simp [hc] at h
    rcases h with rfl | rfl
    · exact Or.inl rfl
    · exact Or.inr ⟨_, rfl⟩

lemma mem_client_blocks {s : SimpleInvoice} {b : Block} (h : b ∈ client_blocks s) :
    b = Block.para "Client" "Heading1" ∨ ∃ d, b = Block.simpleTable d "LEFT" := by
  unfold client_blocks at h
  by_cases hc : (client_info_data s).isEmpty
  · simp [hc] at h
  · simp [hc] at h
    rcases h with rfl | rfl
    · exact Or.inl rfl
    · exact Or.inr ⟨_, rfl⟩

lemma mem_party_blocks {s : SimpleInvoice} {b : Block} (h : b ∈ party_blocks s) :
    (∃ td st, b = Block.table td st) ∨
    b = Block.para "Service Provider" "RightHeading1" ∨
    (∃ d, b = Block.simpleTable d "RIGHT") ∨
    b = Block.para "Client" "Heading1" ∨
    (∃ d, b = Block.simpleTable d "LEFT") := by
  unfold party_blocks at h
  rcases hsp : s.service_provider_info with _ | sp <;>
    rcases hci : s.client_info with _ | ci <;> rw [hsp, hci] at h
  · rcases List.mem_append.mp h with h | h
    · rcases mem_service_provider_blocks h with h | ⟨d, h⟩
      · exact Or.inr (Or.inl h)
      · exact Or.inr (Or.inr (Or.inl ⟨d, h⟩))
    · rcases mem_client_blocks h with h | ⟨d, h⟩
      · exact Or.inr (Or.inr (Or.inr (Or.inl h)))
      · exact Or.inr (Or.inr (Or.inr (Or.inr ⟨d, h⟩)))
  · rcases List.mem_append.mp h with h | h
    · rcases mem_service_provider_blocks h with h | ⟨d, h⟩
      · exact Or.inr (Or.inl h)
      · exact Or.inr (Or.inr (Or.inl ⟨d, h⟩))
    · rcases mem_client_blocks h with h | ⟨d, h⟩
      · exact Or.inr (Or.inr (Or.inr (Or.inl h)))
      · exact Or.inr (Or.inr (Or.inr (Or.inr ⟨d, h⟩)))
  · rcases List.mem_append.mp h with h | h
    · rcases mem_service_provider_blocks h with h | ⟨d, h⟩
      · exact Or.inr (Or.inl h)
      · exact Or.inr (Or.inr (Or.inl ⟨d, h⟩))
    · rcases mem_client_blocks h with h | ⟨d, h⟩
      · exact Or.inr (Or.inr (Or.inr (Or.inl h)))
      · exact Or.inr (Or.inr (Or.inr (Or.inr ⟨d, h⟩)))
  · simp at h
    exact Or.inl ⟨_, _, h⟩

lemma mem_bottom_tip_blocks {s : SimpleInvoice} {b : Block}
    (h : b ∈ bottom_tip_blocks s) :
    b = Block.spacer 5 5 ∨ ∃ t a, b = Block.bottomTipPara t a := by
  unfold bottom_tip_blocks at h
  by_cases hc : truthy s.bottom_tip
  · simp [hc] at h
    rcases h with rfl | rfl
    · exact Or.inl rfl
    · exact Or.inr ⟨_, _, rfl⟩
  · simp [hc] at h

/-- Claim C6: A document with no items and no transactions assembles a
story containing neither the items heading (`Detail`) nor the
transactions heading (`Transaction`) nor any `TableWithHeader` (the block
kind of both the items table and the transactions table): the empty
sections are omitted entirely, heading included. -/
theorem claim_C6_omitted_sections (s : SimpleInvoice)
    (hitems : s.items = []) (htrans : s.transactions = []) (hstory : s.story = []) :
    ∀ b ∈ (finish s).story,
      (∀ st, b ≠ Block.para "Detail" st) ∧
      (∀ st, b ≠ Block.para "Transaction" st) ∧
      (∀ d ha st, b ≠ Block.tableWithHeader d ha st) := by
  intro b hb
  rw [finish_eq] at hb
  simp only [hstory, items_blocks_nil hitems, transactions_blocks_nil htrans,
    List.append_nil, List.nil_append, List.mem_append] at hb
  rcases hb with ((hb | hb) | hb) | hb
  · rw [mem_logo_blocks hb]
    refine ⟨?_, ?_, ?_⟩ <;> intros <;> simp
  · rcases mem_invoice_info_blocks hb with rfl | ⟨d, rfl⟩ <;>
      refine ⟨?_, ?_, ?_⟩ <;> intros <;> simp
  · rcases mem_party_blocks hb with ⟨td, st, rfl⟩ | rfl | ⟨d, rfl⟩ | rfl | ⟨d, rfl⟩ <;>
      refine ⟨?_, ?_, ?_⟩ <;> intros <;> simp
  · rcases mem_bottom_tip_blocks hb with rfl | ⟨t, a, rfl⟩ <;>
      refine ⟨?_, ?_, ?_⟩ <;> intros <;> simp

/-- A client with one populated field, and the client-only document. -/
def exampleClient1 : ClientInfo :=
  ⟨.str "Client A", .none, .none, .none, .none, .none, .none, .none⟩

def clientOnlyState : SimpleInvoice := { client_info := some exampleClient1 }

/-- Witness for C6: the sole block of a client-only document's story (the
`Client` heading) is neither of the two omitted headings nor a
`TableWithHeader`. -/
theorem claim_C6_witness :
    Block.para "Client" "Heading1" ≠ Block.para "Detail" "Heading1" ∧
    Block.para "Client" "Heading1" ≠ Block.para "Transaction" "Heading1" ∧
    Block.para "Client" "Heading1" ≠ Block.tableWithHeader [] "LEFT" [] := by
  obtain ⟨h1, h2, h3⟩ :=
    claim_C6_omitted_sections clientOnlyState rfl rfl rfl
      (Block.para "Client" "Heading1") (by decide)
  exact ⟨h1 "Heading1", h2 "Heading1", h3 [] "LEFT" []⟩

/-- Claim C8: `finish` appends the section blocks in the fixed order
logo → invoice info → party → items → transactions → bottom tip; each
section contributes nothing when its data is absent; the paid stamp never
appends a story block and instead records the `PaidStamp` decoration in
the build kwargs exactly when the paid flag is set. -/
theorem claim_C8_fixed_order (s : SimpleInvoice) :
    ((finish s).story =
      s.story ++ logo_blocks s ++ invoice_info_blocks s ++ party_blocks s ++
        items_blocks s ++ transactions_blocks s ++ bottom_tip_blocks s) ∧
    ((finish s).build_kwargs =
      if s.is_paid then some ⟨3 * inch, -2 * inch⟩ else s.build_kwargs) ∧
    (build_paid_stamp s).story = s.story ∧
    (s.logo = Option.none → logo_blocks s = []) ∧
    (invoice_info_data s = [] → invoice_info_blocks s = []) ∧
    (s.service_provider_info = Option.none → s.client_info = Option.none →
      party_blocks s = []) ∧
    (s.items = [] → items_blocks s = []) ∧
    (s.transactions = [] → transactions_blocks s = []) ∧
    (s.bottom_tip = PyVal.none → bottom_tip_blocks s = []) := by
  refine ⟨by rw [finish_eq], by rw [finish_eq], by rw [build_paid_stamp_eq],
    ?_, ?_, ?_, ?_, ?_, ?_⟩
  · intro h
    simp [logo_blocks, h]
  · intro h
    simp [invoice_info_blocks, h]
  · intro h1 h2
    simp [party_blocks, h1, h2, service_provider_blocks, client_blocks,
      service_provider_data, client_info_data]
  · exact items_blocks_nil
  · exact transactions_blocks_nil
  · intro h
    simp [bottom_tip_blocks, h, truthy]

/-- Witness for C8 on the client-only document state. -/
theorem claim_C8_witness :
    (finish clientOnlyState).story =
      clientOnlyState.story ++ logo_blocks clientOnlyState ++
        invoice_info_blocks clientOnlyState ++ party_blocks clientOnlyState ++
        items_blocks clientOnlyState ++ transactions_blocks clientOnlyState ++
        bottom_tip_blocks clientOnlyState ∧
    items_blocks clientOnlyState = [] :=
  ⟨(claim_C8_fixed_order clientOnlyState).1,
   (claim_C8_fixed_order clientOnlyState).2.2.2.2.2.2.1 rfl⟩

/-- A present-but-entirely-empty client. -/
def emptyClient : ClientInfo := ⟨.none, .none, .none, .none, .none, .none, .none, .none⟩

def clientOnlyEmptyState : SimpleInvoice := { client_info := some emptyClient }

/-- Claim C9 counterexample: A document whose only present party entity is
a `ClientInfo` with no populated field: exactly one entity is present,
yet the party step emits *nothing* — no headed table at all — refuting
the claim for this state. -/
theorem claim_C9_counterexample :
    clientOnlyEmptyState.service_provider_info = Option.none ∧
    clientOnlyEmptyState.client_info = some emptyClient ∧
    (build_service_provider_and_client_info clientOnlyEmptyState).story = [] := by decide

/-- Claim C9, amended: When exactly one of the two party entities is
present *and its sparse row list is non-empty*, the party step emits that
entity alone as a single headed table appended to the story — no merge
and no padding: the client-only case yields the `Client` heading and a
left-aligned `SimpleTable`, the provider-only case the
`Service Provider` heading and a right-aligned `SimpleTable`. -/
theorem claim_C9_single_party (s : SimpleInvoice) :
    (s.service_provider_info = Option.none → client_info_data s ≠ [] →
      (build_service_provider_and_client_info s).story =
        s.story ++ [Block.para "Client" "Heading1",
                    Block.simpleTable (client_info_data s) "LEFT"]) ∧
    (s.client_info = Option.none → service_provider_data s ≠ [] →
      (build_service_provider_and_client_info s).story =
        s.story ++ [Block.para "Service Provider" "RightHeading1",
                    Block.simpleTable (service_provider_data s) "RIGHT"]) := by
  constructor
  · intro h1 h2
    rw [build_spc_eq]
    rcases hci : s.client_info with _ | ci
    · exact absurd (by simp [client_info_data, hci]) h2
    · simp [party_blocks, h1, hci, service_provider_blocks, client_blocks,
        service_provider_data, h2]
  · intro h1 h2
    rw [build_spc_eq]
    rcases hsp : s.service_provider_info with _ | sp
    · exact absurd (by simp [service_provider_data, hsp]) h2
    · simp [party_blocks, h1, hsp, service_provider_blocks, client_blocks,
        client_info_data, h2]

/-- Witness for C9: the populated client-only document emits exactly the
headed, left-aligned client table. -/
theorem claim_C9_witness :
    (build_service_provider_and_client_info clientOnlyState).story =
      clientOnlyState.story ++
        [Block.para "Client" "Heading1",
         Block.simpleTable (client_info_data clientOnlyState) "LEFT"] :=
  (claim_C9_single_party clientOnlyState).1 rfl (by decide)

end PyInvoice
